import Mathlib

/-!
# Verification of the EC2 instance-lifecycle tool (`ec2.py`)

A shallow embedding of the single-instance lifecycle manager: the `up`,
`terminate`, `ssh` and `scp` commands, the instance-record file
(`instance_info.json`), and the calls they make against the cloud-provider
API (modelled as an oracle `Gateway`) and against local subprocesses
(modelled as an oracle `ProcEnv`).  Every externally visible action is
recorded as an `Event` in an append-only trace, and the persisted record
file is explicit state, so that idempotency, ordering and error-handling
properties can be stated over concrete executions.
-/

namespace EC2

/-- Errors surfaced by the cloud-provider API (botocore exceptions,
including waiter timeouts). -/
inductive GwError where
  | timeout
  | apiError (msg : String)
deriving DecidableEq, Repr

/-- Python exceptions that can escape the functions of `ec2.py`:
propagated provider errors, `subprocess.CalledProcessError`,
`json.JSONDecodeError` and `KeyError`. -/
inductive PyError where
  | gw (e : GwError)
  | calledProcessError (code : Nat)
  | jsonDecodeError
  | keyError (k : String)
deriving DecidableEq, Repr

/-- Content of the persisted `instance_info.json` file: either a JSON
object (a finite string-to-string map, as written by `json.dump`) or
malformed bytes that `json.load` rejects. -/
inductive FileContent where
  | json (entries : List (String × String))
  | malformed
deriving DecidableEq, Repr

/-- Externally visible actions, in execution order.  Gateway calls carry
exactly the arguments the source passes to the provider API. -/
inductive Event where
  | echo (msg : String)
  | runInstancesCall (templateId templateVersion : String)
  | waitRunningCall (instanceId : String)
  | describeCall (instanceId : String)
  | attachVolumeCall (device instanceId volumeId : String)
  | waitVolumeCall (volumeId : String)
  | terminateCall (instanceId : String)
  | waitTerminatedCall (instanceId : String)
  | procCall (argv : List String)
  | save (instanceId instanceIp : String)
  | sleepFor (seconds : Nat)
deriving DecidableEq, Repr

/-- Oracle for the provider API: the outcome of each call the tool can
make.  A waiter that times out is an `Except.error`. -/
structure Gateway where
  runInstances : String → String → Except GwError String
  waitInstanceRunning : String → Except GwError Unit
  describeInstanceIp : String → Except GwError String
  attachVolume : String → String → String → Except GwError Unit
  waitVolumeInUse : String → Except GwError Unit
  terminateInstances : String → Except GwError Unit
  waitInstanceTerminated : String → Except GwError Unit

/-- Oracle for subprocess execution: the exit code of each spawned
command line. -/
structure ProcEnv where
  exitCode : List String → Nat

/-- Local state: the persisted record file and the chronological trace of
externally visible actions. -/
structure Sys where
  file : Option FileContent
  trace : List Event
deriving DecidableEq, Repr

/-- Append one event to the trace. -/
def Sys.emit (s : Sys) (e : Event) : Sys :=
  { s with trace := s.trace ++ [e] }

/-- `instance_templates` from the source: template name to
(template id, template version). -/
def instance_templates : List (String × String × String) :=
  [("nano", ("lt-0e0b43a5b92c4d420", "1")),
   ("gpu", ("lt-01849062ec450a84b", "3"))]

/-- `volume_id` from the source. -/
def volume_id : String := "vol-03e082be1ec238e52"

/-- `key_path` from the source. -/
def key_path : String := "~/Dropbox/virginia.cer"

/-- Python `s.startswith(p)`. -/
def pyStartsWith (s p : String) : Bool := p.data.isPrefixOf s.data

/-- Python `s.endswith(p)`. -/
def pyEndsWith (s p : String) : Bool := p.data.isSuffixOf s.data

/-- Python `s[n:]`. -/
def pyDrop (s : String) (n : Nat) : String := String.mk (s.data.drop n)

/-- `posixpath.join(a, b)` for a single extra component. -/
def os_path_join (a b : String) : String :=
  if pyStartsWith b "/" then b
  else if a = "" ∨ pyEndsWith a "/" then a ++ b
  else a ++ "/" ++ b

/-- The component-processing loop of `posixpath.normpath`: drop empty and
`.` components, resolve `..` against the accumulated components. -/
def normpathComps (slashes : Nat) (comps : List String) : List String :=
  comps.foldl (fun acc comp =>
    if comp = "" ∨ comp = "." then acc
    else if comp ≠ ".." ∨ (slashes = 0 ∧ acc = []) ∨ (acc ≠ [] ∧ acc.getLast? = some "..") then
      acc ++ [comp]
    else if acc ≠ [] then acc.dropLast
    else acc) []

/-- `posixpath.normpath`. -/
def normpath (path : String) : String :=
  if path = "" then "."
  else
    let slashes : Nat :=
      if pyStartsWith path "/" then
        if pyStartsWith path "//" ∧ ¬ pyStartsWith path "///" then 2 else 1
      else 0
    let body := String.intercalate "/" (normpathComps slashes (path.splitOn "/"))
    let res := String.mk (List.replicate slashes '/') ++ body
    if res = "" then "." else res

/-- `os.path.abspath(path)` with the current working directory made
explicit: `normpath(join(cwd, path))`. -/
def os_path_abspath (cwd path : String) : String :=
  if pyStartsWith path "/" then normpath path
  else normpath (os_path_join cwd path)

/-- `run_instance`: look up the launch template (a missing key would raise
`KeyError` before any API call), then call `run_instances`. -/
def run_instance (gw : Gateway) (instance_type : String) (s : Sys) :
    Sys × Except PyError String :=
  match instance_templates.lookup instance_type with
  | none => (s, .error (.keyError instance_type))
  | some tv =>
    (s.emit (.runInstancesCall tv.1 tv.2),
      match gw.runInstances tv.1 tv.2 with
      | .ok iid => .ok iid
      | .error e => .error (.gw e))

/-- `get_instance_ip`: `describe_instances` and extract the public IP. -/
def get_instance_ip (gw : Gateway) (instance_id : String) (s : Sys) :
    Sys × Except PyError String :=
  (s.emit (.describeCall instance_id),
    match gw.describeInstanceIp instance_id with
    | .ok ip => .ok ip
    | .error e => .error (.gw e))

/-- The full ssh argument vector built by `execute_ssh`. -/
def ssh_argv (instance_ip : String) (command : List String) : List String :=
  ["ssh", "-i", key_path, "-o", "StrictHostKeyChecking=no",
    "ubuntu@" ++ instance_ip] ++ command

/-- `execute_ssh`: echo the command line, spawn the subprocess, and with
`check = true` (`subprocess.check_call`) raise on a non-zero exit code;
with `check = false` (`subprocess.call`) ignore the exit code. -/
def execute_ssh (env : ProcEnv) (instance_ip : String) (command : List String)
    (check : Bool) (s : Sys) : Sys × Except PyError Unit :=
  let argv := ssh_argv instance_ip command
  let s :=
    (s.emit (.echo ("Executing command: " ++ String.intercalate " " argv))).emit
      (.procCall argv)
  (s,
    if check then
      if env.exitCode argv = 0 then .ok ()
      else .error (.calledProcessError (env.exitCode argv))
    else .ok ())

/-- `save_instance_info`: overwrite `instance_info.json` with a JSON
object holding both fields. -/
def save_instance_info (instance_id instance_ip : String) (s : Sys) : Sys :=
  { s.emit (.save instance_id instance_ip) with
    file := some (.json [("instance_id", instance_id), ("instance_ip", instance_ip)]) }

/-- `load_instance_info`: a missing file (`FileNotFoundError`) is caught
and yields `(None, None)`; malformed content raises out of `json.load`;
missing keys raise `KeyError`. -/
def load_instance_info (file : Option FileContent) :
    Except PyError (Option String × Option String) :=
  match file with
  | none => .ok (none, none)
  | some .malformed => .error .jsonDecodeError
  | some (.json entries) =>
    match entries.lookup "instance_id" with
    | none => .error (.keyError "instance_id")
    | some iid =>
      match entries.lookup "instance_ip" with
      | none => .error (.keyError "instance_ip")
      | some iip => .ok (some iid, some iip)

/-- `attach_volume`: attach the volume at the fixed device `/dev/sdf`,
wait for `volume_in_use`, then mkdir, chown and mount over ssh. -/
def attach_volume (gw : Gateway) (env : ProcEnv)
    (instance_id instance_ip volume_device : String) (s : Sys) :
    Sys × Option PyError :=
  let s := s.emit (.attachVolumeCall "/dev/sdf" instance_id volume_id)
  match gw.attachVolume "/dev/sdf" instance_id volume_id with
  | .error e => (s, some (.gw e))
  | .ok _ =>
    let s := s.emit (.echo "Waiting for volume to be attached...")
    let s := s.emit (.waitVolumeCall volume_id)
    match gw.waitVolumeInUse volume_id with
    | .error e => (s, some (.gw e))
    | .ok _ =>
      let s := s.emit (.echo "Mounting volume...")
      let r1 := execute_ssh env instance_ip ["sudo", "mkdir", "/mnt/external"] true s
      match r1.2 with
      | .error e => (r1.1, some e)
      | .ok _ =>
        let r2 := execute_ssh env instance_ip ["sudo", "chown", "ubuntu", "/mnt/external"] true r1.1
        match r2.2 with
        | .error e => (r2.1, some e)
        | .ok _ =>
          let r3 := execute_ssh env instance_ip
            ["sudo", "mount", volume_device, "/mnt/external"] true r2.1
          match r3.2 with
          | .error e => (r3.1, some e)
          | .ok _ => (r3.1, none)

/-- The `up` command: report an already provisioned instance, or launch,
wait for running, record id and IP, pause, and attach the volume. -/
def up (gw : Gateway) (env : ProcEnv) (instance_type volume_device : String)
    (s : Sys) : Sys × Option PyError :=
  match load_instance_info s.file with
  | .error e => (s, some e)
  | .ok (some instance_id, instance_ip) =>
    (s.emit (.echo ("Instance " ++ instance_id ++ " already provisioned with IP " ++
      (instance_ip.getD "None") ++ ".")), none)
  | .ok (none, _) =>
    let s := s.emit (.echo "Provisioning instance...")
    let r := run_instance gw instance_type s
    match r.2 with
    | .error e => (r.1, some e)
    | .ok instance_id =>
      let s := r.1.emit (.echo "Waiting for instance to start running...")
      let s := s.emit (.waitRunningCall instance_id)
      match gw.waitInstanceRunning instance_id with
      | .error e => (s, some (.gw e))
      | .ok _ =>
        let r2 := get_instance_ip gw instance_id s
        match r2.2 with
        | .error e => (r2.1, some e)
        | .ok instance_ip =>
          let s := r2.1.emit (.echo ("Instance " ++ instance_id ++
            " provisioned with IP " ++ instance_ip ++ "."))
          let s := save_instance_info instance_id instance_ip s
          let s := s.emit (.echo "Waiting for SSH to be available...")
          let s := s.emit (.sleepFor 10)
          attach_volume gw env instance_id instance_ip volume_device s

/-- The `terminate` command: no-op when no record exists; otherwise call
`terminate_instances`, wait for `instance_terminated`, and only then
remove the record file. -/
def terminate (gw : Gateway) (s : Sys) : Sys × Option PyError :=
  match load_instance_info s.file with
  | .error e => (s, some e)
  | .ok (none, _) => (s.emit (.echo "No instance provisioned."), none)
  | .ok (some instance_id, _) =>
    let s := s.emit (.echo ("Terminating instance " ++ instance_id ++ "."))
    let s := s.emit (.terminateCall instance_id)
    match gw.terminateInstances instance_id with
    | .error e => (s, some (.gw e))
    | .ok _ =>
      let s := s.emit (.waitTerminatedCall instance_id)
      match gw.waitInstanceTerminated instance_id with
      | .error e => (s, some (.gw e))
      | .ok _ =>
        let s := s.emit (.procCall ["rm", "instance_info.json"])
        let s := { s with file := none }
        (s.emit (.echo ("Instance " ++ instance_id ++ " terminated.")), none)

/-- The `ssh` command: no-op when no record exists; otherwise open an
interactive session with a port forward, exit status not enforced. -/
def ssh (env : ProcEnv) (s : Sys) : Sys × Option PyError :=
  match load_instance_info s.file with
  | .error e => (s, some e)
  | .ok (_, none) => (s.emit (.echo "No instance provisioned."), none)
  | .ok (_, some instance_ip) =>
    let s := s.emit (.echo ("SSHing into instance with IP " ++ instance_ip ++ "."))
    ((execute_ssh env instance_ip ["-L", "8888:localhost:8888"] false s).1, none)

/-- `normalize_path` from the `scp` command: rewrite `ec2:`-prefixed paths
to the recorded remote host, resolve everything else to an absolute local
path. -/
def normalize_path (instance_ip cwd path : String) : String :=
  if pyStartsWith path "ec2:" then "ubuntu@" ++ instance_ip ++ ":" ++ pyDrop path 4
  else os_path_abspath cwd path

/-- The `scp` command: no-op when no record exists; otherwise normalize
both paths and spawn `scp` (checked). -/
def scp (env : ProcEnv) (cwd from_path to_path : String) (s : Sys) :
    Sys × Option PyError :=
  match load_instance_info s.file with
  | .error e => (s, some e)
  | .ok (_, none) => (s.emit (.echo "No instance provisioned."), none)
  | .ok (_, some instance_ip) =>
    let s := s.emit (.echo ("Copying " ++ from_path ++ " to " ++ to_path ++
      " on instance with IP " ++ instance_ip ++ "."))
    let fp := normalize_path instance_ip cwd from_path
    let tp := normalize_path instance_ip cwd to_path
    let argv := ["scp", "-i", key_path, "-o", "StrictHostKeyChecking=no", fp, tp]
    let s := s.emit (.procCall argv)
    if env.exitCode argv = 0 then (s, none)
    else (s, some (.calledProcessError (env.exitCode argv)))

/-- Number of launch (`run_instances`) calls in a trace. -/
def launchCount (tr : List Event) : Nat :=
  (tr.filter fun e => match e with
    | .runInstancesCall _ _ => true
    | _ => false).length

/-- Whether an event is a call against the provider API. -/
def Event.isGatewayCall : Event → Bool
  | .runInstancesCall _ _ => true
  | .waitRunningCall _ => true
  | .describeCall _ => true
  | .attachVolumeCall _ _ _ => true
  | .waitVolumeCall _ => true
  | .terminateCall _ => true
  | .waitTerminatedCall _ => true
  | _ => false

/-- The gateway calls occurring in a trace, in order. -/
def gatewayCalls (tr : List Event) : List Event :=
  tr.filter Event.isGatewayCall

/-- The record file content `up` writes for a given id and IP. -/
def recFile (instance_id instance_ip : String) : FileContent :=
  .json [("instance_id", instance_id), ("instance_ip", instance_ip)]

/-- A file content the record loader rejects: malformed bytes, or a JSON
object missing one of the two required keys. -/
def corruptContent : FileContent → Bool
  | .malformed => true
  | .json entries =>
    (entries.lookup "instance_id").isNone || (entries.lookup "instance_ip").isNone

/-- A provider environment in which every call succeeds, launching
`i-0abc` with public IP `203.0.113.5`. -/
def gwAllOk : Gateway where
  runInstances := fun _ _ => .ok "i-0abc"
  waitInstanceRunning := fun _ => .ok ()
  describeInstanceIp := fun _ => .ok "203.0.113.5"
  attachVolume := fun _ _ _ => .ok ()
  waitVolumeInUse := fun _ => .ok ()
  terminateInstances := fun _ => .ok ()
  waitInstanceTerminated := fun _ => .ok ()

/-- A provider environment in which the launch succeeds but the
wait-until-running call times out. -/
def gwWaitTimeout : Gateway where
  runInstances := fun _ _ => .ok "i-0abc"
  waitInstanceRunning := fun _ => .error .timeout
  describeInstanceIp := fun _ => .ok "203.0.113.5"
  attachVolume := fun _ _ _ => .ok ()
  waitVolumeInUse := fun _ => .ok ()
  terminateInstances := fun _ => .ok ()
  waitInstanceTerminated := fun _ => .ok ()

/-- A provider environment in which the terminate call itself fails. -/
def gwTerminateFails : Gateway where
  runInstances := fun _ _ => .ok "i-0abc"
  waitInstanceRunning := fun _ => .ok ()
  describeInstanceIp := fun _ => .ok "203.0.113.5"
  attachVolume := fun _ _ _ => .ok ()
  waitVolumeInUse := fun _ => .ok ()
  terminateInstances := fun _ => .error (.apiError "terminate failed")
  waitInstanceTerminated := fun _ => .ok ()

/-- A subprocess environment in which every spawned command exits 0. -/
def envAllOk : ProcEnv := ⟨fun _ => 0⟩

/-- A subprocess environment in which the remote mkdir exits 1 and every
other command exits 0. -/
def envMkdirFails : ProcEnv :=
  ⟨fun argv =>
    if argv = ssh_argv "203.0.113.5" ["sudo", "mkdir", "/mnt/external"] then 1 else 0⟩

theorem pyStartsWith_slash_iff (p : String) :
    pyStartsWith p "/" = true ↔ ∃ t : String, p = "/" ++ t := by
  unfold pyStartsWith
  constructor
  · intro h
    rw [show ("/" : String).data = ['/'] from rfl, List.isPrefixOf_iff_prefix] at h
    obtain ⟨t, ht⟩ := h
    exact ⟨String.mk t, String.ext (by simp [String.data_append, ← ht])⟩
  · rintro ⟨t, rfl⟩
    rw [show ("/" : String).data = ['/'] from rfl, List.isPrefixOf_iff_prefix]
    exact ⟨t.data, by simp [String.data_append]⟩

theorem slash_append_ne_empty (r : String) : ("/" ++ r : String) ≠ "" := by
  intro h
  have h2 := congrArg String.data h
  simp [String.data_append] at h2

theorem normpath_absolute (p : String) (h : ∃ t : String, p = "/" ++ t) :
    ∃ r : String, normpath p = "/" ++ r := by
  have hne : p ≠ "" := by obtain ⟨t, rfl⟩ := h; exact slash_append_ne_empty t
  have hsw : pyStartsWith p "/" = true := (pyStartsWith_slash_iff p).2 h
  unfold normpath
  rw [if_neg hne, hsw]
  simp only [if_true]
  by_cases hA : pyStartsWith p "//" ∧ ¬ pyStartsWith p "///"
  · rw [if_pos hA]
    refine ⟨"/" ++ String.intercalate "/" (normpathComps 2 (p.splitOn "/")), ?_⟩
    rw [if_neg ?h2]
    · apply String.ext
      simp [String.data_append]
    · apply slash_append_ne_empty
  · rw [if_neg hA]
    refine ⟨String.intercalate "/" (normpathComps 1 (p.splitOn "/")), ?_⟩
    rw [if_neg ?h1]
    · apply String.ext
      simp [String.data_append]
    · apply slash_append_ne_empty

theorem os_path_join_absolute (cwd c path : String) (hcwd : cwd = "/" ++ c) :
    ∃ t : String, os_path_join cwd path = "/" ++ t := by
  unfold os_path_join
  by_cases hb : pyStartsWith path "/" = true
  · rw [if_pos hb]
    exact (pyStartsWith_slash_iff path).1 hb
  · rw [if_neg hb]
    by_cases h2 : cwd = "" ∨ pyEndsWith cwd "/" = true
    · rw [if_pos h2]
      exact ⟨c ++ path, by rw [hcwd, String.append_assoc]⟩
    · rw [if_neg h2]
      exact ⟨c ++ "/" ++ path, by rw [hcwd]; simp [String.append_assoc]⟩

theorem os_path_abspath_absolute (cwd c path : String) (hcwd : cwd = "/" ++ c) :
    ∃ r : String, os_path_abspath cwd path = "/" ++ r := by
  unfold os_path_abspath
  by_cases hb : pyStartsWith path "/" = true
  · rw [if_pos hb]
    exact normpath_absolute path ((pyStartsWith_slash_iff path).1 hb)
  · rw [if_neg hb]
    exact normpath_absolute _ (os_path_join_absolute cwd c path hcwd)

/-- C6: `scp` path resolution — every `ec2:`-prefixed path is rewritten to
`ubuntu@<recorded-address>:<rest>` (independent of the working directory),
every other path resolves to an absolute local path; in particular
`path/to/x` becomes absolute and `ec2:/remote/y` becomes
`ubuntu@<recorded-address>:/remote/y`. -/
theorem scp_normalize_path (instance_ip cwd c path : String) (hcwd : cwd = "/" ++ c) :
    (pyStartsWith path "ec2:" = true →
      normalize_path instance_ip cwd path =
        "ubuntu@" ++ instance_ip ++ ":" ++ pyDrop path 4) ∧
    (pyStartsWith path "ec2:" = false →
      ∃ r : String, normalize_path instance_ip cwd path = "/" ++ r) ∧
    (∃ r : String, normalize_path instance_ip cwd "path/to/x" = "/" ++ r) ∧
    normalize_path instance_ip cwd "ec2:/remote/y" =
      "ubuntu@" ++ instance_ip ++ ":/remote/y" := by
  refine ⟨?_, ?_, ?_, ?_⟩
  · intro h
    unfold normalize_path
    rw [if_pos h]
  · intro h
    unfold normalize_path
    rw [if_neg (by simp [h])]
    exact os_path_abspath_absolute cwd c path hcwd
  · unfold normalize_path
    rw [if_neg (by decide)]
    exact os_path_abspath_absolute cwd c _ hcwd
  · unfold normalize_path
    rw [if_pos (by decide)]
    rw [show pyDrop "ec2:/remote/y" 4 = "/remote/y" from by decide]
    rw [String.append_assoc]
    rfl

/-- Witness for C6 at a concrete working directory and path pair. -/
theorem scp_normalize_path_witness :
    ("/home/user" : String) = "/" ++ "home/user" ∧
    normalize_path "1.2.3.4" "/home/user" "ec2:/remote/y" = "ubuntu@1.2.3.4:/remote/y" ∧
    (∃ r : String, normalize_path "1.2.3.4" "/home/user" "path/to/x" = "/" ++ r) := by
  refine ⟨by decide, ?_, ?_⟩
  · have h := (scp_normalize_path "1.2.3.4" "/home/user" "home/user" "ec2:/remote/y"
      (by decide)).2.2.2
    simpa using h
  · exact (scp_normalize_path "1.2.3.4" "/home/user" "home/user" "x" (by decide)).2.2.1

theorem Sys.file_emit (s : Sys) (e : Event) : (s.emit e).file = s.file := rfl

theorem Sys.trace_emit (s : Sys) (e : Event) : (s.emit e).trace = s.trace ++ [e] := rfl

theorem launchCount_append (a b : List Event) :
    launchCount (a ++ b) = launchCount a + launchCount b := by
  simp [launchCount, List.filter_append]

theorem attach_volume_tail (gw : Gateway) (env : ProcEnv)
    (iid ip vdev : String) (s : Sys) :
    ∃ tl : List Event,
      (attach_volume gw env iid ip vdev s).1.trace = s.trace ++ tl ∧
      (attach_volume gw env iid ip vdev s).1.file = s.file ∧
      launchCount tl = 0 ∧
      (∀ d i vo, Event.attachVolumeCall d i vo ∈ tl →
        d = "/dev/sdf" ∧ i = iid ∧ vo = volume_id) := by
  unfold attach_volume
  rcases h1 : gw.attachVolume "/dev/sdf" iid volume_id with e | u
  · refine ⟨[.attachVolumeCall "/dev/sdf" iid volume_id], ?_, rfl, by simp [launchCount], ?_⟩
    · simp [Sys.emit]
    · intro d i vo h
      simp only [List.mem_singleton, Event.attachVolumeCall.injEq] at h
      exact ⟨h.1, h.2.1, h.2.2⟩
  · rcases h2 : gw.waitVolumeInUse volume_id with e | u2
    · refine ⟨[.attachVolumeCall "/dev/sdf" iid volume_id,
        .echo "Waiting for volume to be attached...", .waitVolumeCall volume_id],
        ?_, rfl, by simp [launchCount], ?_⟩
      · simp [Sys.emit]
      · intro d i vo h
        simp only [List.mem_cons, List.mem_singleton] at h
        rcases h with h | h | h <;> simp_all
    · unfold execute_ssh
      by_cases h3 : env.exitCode (ssh_argv ip ["sudo", "mkdir", "/mnt/external"]) = 0
      · by_cases h4 : env.exitCode (ssh_argv ip ["sudo", "chown", "ubuntu", "/mnt/external"]) = 0
        · by_cases h5 : env.exitCode (ssh_argv ip ["sudo", "mount", vdev, "/mnt/external"]) = 0 <;>
          · refine ⟨[.attachVolumeCall "/dev/sdf" iid volume_id,
              .echo "Waiting for volume to be attached...", .waitVolumeCall volume_id,
              .echo "Mounting volume...",
              .echo ("Executing command: " ++ String.intercalate " " (ssh_argv ip ["sudo", "mkdir", "/mnt/external"])),
              .procCall (ssh_argv ip ["sudo", "mkdir", "/mnt/external"]),
              .echo ("Executing command: " ++ String.intercalate " " (ssh_argv ip ["sudo", "chown", "ubuntu", "/mnt/external"])),
              .procCall (ssh_argv ip ["sudo", "chown", "ubuntu", "/mnt/external"]),
              .echo ("Executing command: " ++ String.intercalate " " (ssh_argv ip ["sudo", "mount", vdev, "/mnt/external"])),
              .procCall (ssh_argv ip ["sudo", "mount", vdev, "/mnt/external"])],
              ?_, ?_, by simp [launchCount], ?_⟩
            · simp [Sys.emit, h3, h4, h5]
            · simp [Sys.emit, h3, h4, h5]
            · intro d i vo h
              simp only [List.mem_cons, List.mem_singleton] at h
              rcases h with h | h | h | h | h | h | h | h | h | h <;> simp_all
        · refine ⟨[.attachVolumeCall "/dev/sdf" iid volume_id,
            .echo "Waiting for volume to be attached...", .waitVolumeCall volume_id,
            .echo "Mounting volume...",
            .echo ("Executing command: " ++ String.intercalate " " (ssh_argv ip ["sudo", "mkdir", "/mnt/external"])),
            .procCall (ssh_argv ip ["sudo", "mkdir", "/mnt/external"]),
            .echo ("Executing command: " ++ String.intercalate " " (ssh_argv ip ["sudo", "chown", "ubuntu", "/mnt/external"])),
            .procCall (ssh_argv ip ["sudo", "chown", "ubuntu", "/mnt/external"])],
            ?_, ?_, by simp [launchCount], ?_⟩
          · simp [Sys.emit, h3, h4]
          · simp [Sys.emit, h3, h4]
          · intro d i vo h
            simp only [List.mem_cons, List.mem_singleton] at h
            rcases h with h | h | h | h | h | h | h | h <;> simp_all
      · refine ⟨[.attachVolumeCall "/dev/sdf" iid volume_id,
          .echo "Waiting for volume to be attached...", .waitVolumeCall volume_id,
          .echo "Mounting volume...",
          .echo ("Executing command: " ++ String.intercalate " " (ssh_argv ip ["sudo", "mkdir", "/mnt/external"])),
          .procCall (ssh_argv ip ["sudo", "mkdir", "/mnt/external"])],
          ?_, ?_, by simp [launchCount], ?_⟩
        · simp [Sys.emit, h3]
        · simp [Sys.emit, h3]
        · intro d i vo h
          simp only [List.mem_cons, List.mem_singleton] at h
          rcases h with h | h | h | h | h | h <;> simp_all

theorem up_success_shape (gw : Gateway) (env : ProcEnv) (t v : String) (s : Sys)
    (h0 : s.file = none) (hs : (up gw env t v s).2 = none) :
    ∃ iid iip, (up gw env t v s).1.file = some (recFile iid iip) ∧
      launchCount (up gw env t v s).1.trace = launchCount s.trace + 1 := by
  simp only [up, load_instance_info, h0] at hs ⊢
  rcases hl : instance_templates.lookup t with _ | tv
  · simp [run_instance, hl] at hs
  · simp only [run_instance, hl] at hs ⊢
    rcases hr : gw.runInstances tv.1 tv.2 with e | iid
    · simp [hr] at hs
    · simp only [hr] at hs ⊢
      rcases hw : gw.waitInstanceRunning iid with e | u
      · simp [hw] at hs
      · simp only [hw, get_instance_ip] at hs ⊢
        rcases hd : gw.describeInstanceIp iid with e | iip
        · simp [hd] at hs
        · simp only [hd] at hs ⊢
          obtain ⟨tl, htr, hf, hlc, -⟩ := attach_volume_tail gw env iid iip v
            (((save_instance_info iid iip
              ((((((s.emit (.echo "Provisioning instance...")).emit
                (.runInstancesCall tv.1 tv.2)).emit
                (.echo "Waiting for instance to start running...")).emit
                (.waitRunningCall iid)).emit
                (.describeCall iid)).emit
                (.echo ("Instance " ++ iid ++ " provisioned with IP " ++ iip ++ ".")))).emit
              (.echo "Waiting for SSH to be available...")).emit
              (.sleepFor 10))
          refine ⟨iid, iip, ?_, ?_⟩
          · rw [hf]
            simp [save_instance_info, Sys.emit, recFile]
          · rw [htr, launchCount_append, hlc]
            simp [save_instance_info, Sys.emit, launchCount, List.filter_append]

theorem attach_volume_file (gw : Gateway) (env : ProcEnv)
    (iid ip vdev : String) (s : Sys) :
    (attach_volume gw env iid ip vdev s).1.file = s.file := by
  obtain ⟨_, _, hf, _, _⟩ := attach_volume_tail gw env iid ip vdev s
  exact hf

theorem up_existing_record (gw : Gateway) (env : ProcEnv) (t v : String) (s : Sys)
    (es : List (String × String)) (iid iip : String)
    (hfile : s.file = some (.json es))
    (hid : es.lookup "instance_id" = some iid)
    (hip : es.lookup "instance_ip" = some iip) :
    up gw env t v s =
      (s.emit (.echo ("Instance " ++ iid ++ " already provisioned with IP " ++
        iip ++ ".")), none) := by
  simp only [up, load_instance_info, hfile, hid, hip, Option.getD]

theorem recFile_lookup_id (iid iip : String) :
    ([("instance_id", iid), ("instance_ip", iip)] : List (String × String)).lookup
      "instance_id" = some iid := rfl

theorem recFile_lookup_ip (iid iip : String) :
    ([("instance_id", iid), ("instance_ip", iip)] : List (String × String)).lookup
      "instance_ip" = some iip := rfl

/-- C1 (amended): when a persisted InstanceRecord exists, `up` performs no
launch call, leaves the record unchanged, and only reports the existing
instance; consequently, when a first `up` from the unprovisioned state
completes successfully, an immediately following `up` (same or different
template) performs no further launch call, so both runs together perform
exactly one launch call and the record is the first run's record. -/
theorem up_idempotent :
    (∀ (gw : Gateway) (env : ProcEnv) (t v : String) (s : Sys)
        (es : List (String × String)) (iid iip : String),
        s.file = some (.json es) →
        es.lookup "instance_id" = some iid →
        es.lookup "instance_ip" = some iip →
        up gw env t v s =
          (s.emit (.echo ("Instance " ++ iid ++ " already provisioned with IP " ++
            iip ++ ".")), none)) ∧
    (∀ (gw gw2 : Gateway) (env env2 : ProcEnv) (t1 t2 v1 v2 : String),
        (up gw env t1 v1 ⟨none, []⟩).2 = none →
        launchCount (up gw2 env2 t2 v2 (up gw env t1 v1 ⟨none, []⟩).1).1.trace = 1 ∧
        (up gw2 env2 t2 v2 (up gw env t1 v1 ⟨none, []⟩).1).1.file =
          (up gw env t1 v1 ⟨none, []⟩).1.file) := by
  constructor
  · exact fun gw env t v s es iid iip hf hid hip =>
      up_existing_record gw env t v s es iid iip hf hid hip
  · intro gw gw2 env env2 t1 t2 v1 v2 hs
    obtain ⟨iid, iip, hf, hlc⟩ := up_success_shape gw env t1 v1 ⟨none, []⟩ rfl hs
    have h2 := up_existing_record gw2 env2 t2 v2 (up gw env t1 v1 ⟨none, []⟩).1
      [("instance_id", iid), ("instance_ip", iip)] iid iip hf
      (recFile_lookup_id iid iip) (recFile_lookup_ip iid iip)
    rw [h2]
    constructor
    · simp only [Sys.trace_emit, launchCount_append]
      rw [hlc]
      simp [launchCount]
    · simp [Sys.file_emit]

/-- Witness for C1 at concrete oracles: a second `up` after a record
exists only echoes, and two consecutive `up` runs launch exactly once. -/
theorem up_idempotent_witness :
    up gwAllOk envAllOk "gpu" "/dev/nvme2n1" ⟨some (recFile "i-0abc" "203.0.113.5"), []⟩ =
      (Sys.emit ⟨some (recFile "i-0abc" "203.0.113.5"), []⟩
        (.echo "Instance i-0abc already provisioned with IP 203.0.113.5."), none) ∧
    launchCount (up gwAllOk envAllOk "gpu" "/dev/nvme2n1"
      (up gwAllOk envAllOk "nano" "/dev/nvme2n1" ⟨none, []⟩).1).1.trace = 1 := by
  constructor
  · have h := up_idempotent.1 gwAllOk envAllOk "gpu" "/dev/nvme2n1"
      ⟨some (recFile "i-0abc" "203.0.113.5"), []⟩
      [("instance_id", "i-0abc"), ("instance_ip", "203.0.113.5")]
      "i-0abc" "203.0.113.5" rfl rfl rfl
    exact h.trans (by decide)
  · exact (up_idempotent.2 gwAllOk gwAllOk envAllOk envAllOk
      "nano" "gpu" "/dev/nvme2n1" "/dev/nvme2n1" (by decide)).1

/-- C1 counterexample: when the provider's wait-until-running call times
out, the first `up` launches an instance but persists no record, so an
immediately following `up` launches again — two launch calls in total,
refuting "at most one launch call in total" over all command sequences. -/
theorem up_up_two_launches :
    launchCount (up gwWaitTimeout envAllOk "gpu" "/dev/nvme2n1"
      (up gwWaitTimeout envAllOk "nano" "/dev/nvme2n1" ⟨none, []⟩).1).1.trace = 2 ∧
    ¬ launchCount (up gwWaitTimeout envAllOk "gpu" "/dev/nvme2n1"
      (up gwWaitTimeout envAllOk "nano" "/dev/nvme2n1" ⟨none, []⟩).1).1.trace ≤ 1 := by
  decide

/-- C2 (amended): `up` persists no record before the wait-until-running
call: a wait timeout (or a describe failure) makes `up` exit fatally with
no record persisted at all; the record — always containing both
`instance_id` and the address — is persisted only once the describe call
has returned the address. -/
theorem up_record_only_after_address (gw : Gateway) (env : ProcEnv)
    (t v tid ver iid : String)
    (hl : instance_templates.lookup t = some (tid, ver))
    (hr : gw.runInstances tid ver = .ok iid) :
    (∀ e, gw.waitInstanceRunning iid = .error e →
      up gw env t v ⟨none, []⟩ =
        (⟨none, [.echo "Provisioning instance...", .runInstancesCall tid ver,
          .echo "Waiting for instance to start running...", .waitRunningCall iid]⟩,
          some (.gw e))) ∧
    (∀ e u, gw.waitInstanceRunning iid = .ok u → gw.describeInstanceIp iid = .error e →
      (up gw env t v ⟨none, []⟩).1.file = none ∧
      (up gw env t v ⟨none, []⟩).2 = some (.gw e)) ∧
    (∀ ip u, gw.waitInstanceRunning iid = .ok u → gw.describeInstanceIp iid = .ok ip →
      (up gw env t v ⟨none, []⟩).1.file = some (recFile iid ip)) := by
  refine ⟨?_, ?_, ?_⟩
  · intro e hw
    simp [up, load_instance_info, run_instance, hl, hr, hw, Sys.emit]
  · intro e u hw hd
    constructor <;>
      simp [up, load_instance_info, run_instance, get_instance_ip, hl, hr, hw, hd, Sys.emit]
  · intro ip u hw hd
    simp only [up, load_instance_info, run_instance, get_instance_ip, hl, hr, hw, hd]
    rw [attach_volume_file]
    simp [save_instance_info, Sys.emit, recFile]

/-- Witness for C2: with a timing-out waiter the concrete `up` run ends in
the stated failure state; with an all-ok provider the record appears with
the describe result. -/
theorem up_record_only_after_address_witness :
    up gwWaitTimeout envAllOk "nano" "/dev/nvme2n1" ⟨none, []⟩ =
      (⟨none, [.echo "Provisioning instance...",
        .runInstancesCall "lt-0e0b43a5b92c4d420" "1",
        .echo "Waiting for instance to start running...", .waitRunningCall "i-0abc"]⟩,
        some (.gw .timeout)) ∧
    (up gwAllOk envAllOk "nano" "/dev/nvme2n1" ⟨none, []⟩).1.file =
      some (recFile "i-0abc" "203.0.113.5") := by
  constructor
  · exact (up_record_only_after_address gwWaitTimeout envAllOk "nano" "/dev/nvme2n1"
      "lt-0e0b43a5b92c4d420" "1" "i-0abc" (by decide) rfl).1 .timeout rfl
  · exact (up_record_only_after_address gwAllOk envAllOk "nano" "/dev/nvme2n1"
      "lt-0e0b43a5b92c4d420" "1" "i-0abc" (by decide) rfl).2.2 "203.0.113.5" () rfl rfl

/-- C2 counterexample: after the concrete wait-until-running timeout, `up`
exits fatally but leaves no persisted record at all — in particular no
partial record containing `instance_id` — refuting the claimed partial
persist. -/
theorem up_wait_timeout_leaves_no_record :
    (up gwWaitTimeout envAllOk "nano" "/dev/nvme2n1" ⟨none, []⟩).2 =
      some (.gw .timeout) ∧
    (up gwWaitTimeout envAllOk "nano" "/dev/nvme2n1" ⟨none, []⟩).1.file = none := by
  decide

theorem load_recFile (iid iip : String) :
    load_instance_info (some (recFile iid iip)) = .ok (some iid, some iip) := rfl

theorem terminate_gw_err (gw : Gateway) (iid iip : String) (e : GwError)
    (h1 : gw.terminateInstances iid = .error e) :
    terminate gw ⟨some (recFile iid iip), []⟩ =
      (⟨some (recFile iid iip),
        [.echo ("Terminating instance " ++ iid ++ "."), .terminateCall iid]⟩,
        some (.gw e)) := by
  simp [terminate, load_recFile, h1, Sys.emit]

theorem terminate_wait_err (gw : Gateway) (iid iip : String) (e : GwError) (u : Unit)
    (h1 : gw.terminateInstances iid = .ok u)
    (h2 : gw.waitInstanceTerminated iid = .error e) :
    terminate gw ⟨some (recFile iid iip), []⟩ =
      (⟨some (recFile iid iip),
        [.echo ("Terminating instance " ++ iid ++ "."), .terminateCall iid,
         .waitTerminatedCall iid]⟩, some (.gw e)) := by
  simp [terminate, load_recFile, h1, h2, Sys.emit]

theorem terminate_ok (gw : Gateway) (iid iip : String) (u u2 : Unit)
    (h1 : gw.terminateInstances iid = .ok u)
    (h2 : gw.waitInstanceTerminated iid = .ok u2) :
    terminate gw ⟨some (recFile iid iip), []⟩ =
      (⟨none, [.echo ("Terminating instance " ++ iid ++ "."), .terminateCall iid,
        .waitTerminatedCall iid, .procCall ["rm", "instance_info.json"],
        .echo ("Instance " ++ iid ++ " terminated.")]⟩, none) := by
  simp [terminate, load_recFile, h1, h2, Sys.emit]

/-- C3: with a recorded instance, `terminate` deletes the record only
after the wait confirms termination — the record-file removal appears in
the trace strictly after the wait-until-terminated call, and only when
that wait succeeded — and any failure of the terminate call or of the
wait aborts with the record left intact. -/
theorem terminate_ordering (gw : Gateway) (iid iip : String) :
    (∀ e, gw.terminateInstances iid = .error e →
      terminate gw ⟨some (recFile iid iip), []⟩ =
        (⟨some (recFile iid iip),
          [.echo ("Terminating instance " ++ iid ++ "."), .terminateCall iid]⟩,
          some (.gw e))) ∧
    (∀ e u, gw.terminateInstances iid = .ok u →
      gw.waitInstanceTerminated iid = .error e →
      terminate gw ⟨some (recFile iid iip), []⟩ =
        (⟨some (recFile iid iip),
          [.echo ("Terminating instance " ++ iid ++ "."), .terminateCall iid,
           .waitTerminatedCall iid]⟩, some (.gw e))) ∧
    (∀ u u2, gw.terminateInstances iid = .ok u →
      gw.waitInstanceTerminated iid = .ok u2 →
      terminate gw ⟨some (recFile iid iip), []⟩ =
        (⟨none, [.echo ("Terminating instance " ++ iid ++ "."), .terminateCall iid,
          .waitTerminatedCall iid, .procCall ["rm", "instance_info.json"],
          .echo ("Instance " ++ iid ++ " terminated.")]⟩, none)) ∧
    (∀ i, ((terminate gw ⟨some (recFile iid iip), []⟩).1.trace.get? i =
        some (Event.procCall ["rm", "instance_info.json"])) →
      gw.waitInstanceTerminated iid = .ok () ∧
      ∃ j, j < i ∧ (terminate gw ⟨some (recFile iid iip), []⟩).1.trace.get? j =
        some (Event.waitTerminatedCall iid)) := by
  refine ⟨fun e h1 => terminate_gw_err gw iid iip e h1,
    fun e u h1 h2 => terminate_wait_err gw iid iip e u h1 h2,
    fun u u2 h1 h2 => terminate_ok gw iid iip u u2 h1 h2, ?_⟩
  intro i h
  rcases h1 : gw.terminateInstances iid with e | u
  · rw [terminate_gw_err gw iid iip e h1] at h
    rcases i with _ | _ | i <;> simp [List.get?] at h
  · rcases h2 : gw.waitInstanceTerminated iid with e | u2
    · rw [terminate_wait_err gw iid iip e u h1 h2] at h
      rcases i with _ | _ | _ | i <;> simp [List.get?] at h
    · rw [terminate_ok gw iid iip u u2 h1 h2] at h ⊢
      refine ⟨by cases u2; rfl, ?_⟩
      rcases i with _ | _ | _ | _ | _ | i <;> simp [List.get?] at h ⊢
      exact ⟨2, by norm_num, rfl⟩

/-- Witness for C3 at concrete oracles: a failing terminate call leaves
the record intact, and in a successful run the record-file removal (trace
index 3) is preceded by the wait-until-terminated call (index 2). -/
theorem terminate_ordering_witness :
    terminate gwTerminateFails ⟨some (recFile "i-0abc" "203.0.113.5"), []⟩ =
      (⟨some (recFile "i-0abc" "203.0.113.5"),
        [.echo "Terminating instance i-0abc.", .terminateCall "i-0abc"]⟩,
        some (.gw (.apiError "terminate failed"))) ∧
    (gwAllOk.waitInstanceTerminated "i-0abc" = .ok () ∧
      ∃ j, j < 3 ∧
        (terminate gwAllOk ⟨some (recFile "i-0abc" "203.0.113.5"), []⟩).1.trace.get? j =
          some (Event.waitTerminatedCall "i-0abc")) := by
  constructor
  · exact ((terminate_ordering gwTerminateFails "i-0abc" "203.0.113.5").1
      (.apiError "terminate failed") rfl).trans (by decide)
  · exact (terminate_ordering gwAllOk "i-0abc" "203.0.113.5").2.2.2 3 (by decide)

/-- C4: after a successful `terminate`, the record store loads as absent,
and every subsequent `ssh`, `scp` or `terminate` call from a state with no
record only echoes "No instance provisioned." — it performs no gateway
call and no subprocess call, and leaves the state unchanged. -/
theorem terminate_then_not_provisioned (gw gw2 : Gateway) (env : ProcEnv)
    (iid iip cwd p q : String) (u u2 : Unit)
    (h1 : gw.terminateInstances iid = .ok u)
    (h2 : gw.waitInstanceTerminated iid = .ok u2) :
    (terminate gw ⟨some (recFile iid iip), []⟩).1.file = none ∧
    load_instance_info (terminate gw ⟨some (recFile iid iip), []⟩).1.file =
      .ok (none, none) ∧
    (∀ s : Sys, s.file = none →
      ssh env s = (s.emit (.echo "No instance provisioned."), none) ∧
      scp env cwd p q s = (s.emit (.echo "No instance provisioned."), none) ∧
      terminate gw2 s = (s.emit (.echo "No instance provisioned."), none) ∧
      gatewayCalls (terminate gw2 s).1.trace = gatewayCalls s.trace ∧
      (∀ a, Event.procCall a ∈ (ssh env s).1.trace → Event.procCall a ∈ s.trace)) := by
  refine ⟨?_, ?_, ?_⟩
  · rw [terminate_ok gw iid iip u u2 h1 h2]
  · rw [terminate_ok gw iid iip u u2 h1 h2]
    rfl
  · intro s hfile
    have hssh : ssh env s = (s.emit (.echo "No instance provisioned."), none) := by
      simp [ssh, load_instance_info, hfile]
    have hterm : terminate gw2 s = (s.emit (.echo "No instance provisioned."), none) := by
      simp [terminate, load_instance_info, hfile]
    refine ⟨hssh, ?_, hterm, ?_, ?_⟩
    · simp [scp, load_instance_info, hfile]
    · rw [hterm]
      simp [gatewayCalls, Sys.emit, List.filter_append, Event.isGatewayCall]
    · intro a ha
      rw [hssh] at ha
      simp only [Sys.trace_emit, List.mem_append, List.mem_singleton] at ha
      rcases ha with ha | ha
      · exact ha
      · cases ha

/-- Witness for C4 at the all-ok provider and a concrete record. -/
theorem terminate_then_not_provisioned_witness :
    (terminate gwAllOk ⟨some (recFile "i-0abc" "203.0.113.5"), []⟩).1.file = none ∧
    ssh envAllOk ⟨none, []⟩ = (Sys.emit ⟨none, []⟩ (.echo "No instance provisioned."), none) ∧
    terminate gwTerminateFails ⟨none, []⟩ =
      (Sys.emit ⟨none, []⟩ (.echo "No instance provisioned."), none) := by
  have h := terminate_then_not_provisioned gwAllOk gwTerminateFails envAllOk
    "i-0abc" "203.0.113.5" "/home" "a" "b" () () rfl rfl
  exact ⟨h.1, (h.2.2 ⟨none, []⟩ rfl).1, (h.2.2 ⟨none, []⟩ rfl).2.2.1⟩

/-- C5: `terminate` with no persisted record performs zero gateway calls
and no subprocess call, leaves the file state unchanged, and returns
successfully after the informational echo. -/
theorem terminate_no_record_noop (gw : Gateway) (s : Sys) (h : s.file = none) :
    terminate gw s = (s.emit (.echo "No instance provisioned."), none) ∧
    gatewayCalls (terminate gw s).1.trace = gatewayCalls s.trace ∧
    (terminate gw s).1.file = s.file ∧
    (terminate gw s).2 = none ∧
    (∀ a, Event.procCall a ∈ (terminate gw s).1.trace → Event.procCall a ∈ s.trace) := by
  have heq : terminate gw s = (s.emit (.echo "No instance provisioned."), none) := by
    simp [terminate, load_instance_info, h]
  refine ⟨heq, ?_, ?_, ?_, ?_⟩
  · rw [heq]
    simp [gatewayCalls, Sys.emit, List.filter_append, Event.isGatewayCall]
  · rw [heq, Sys.file_emit, h]
  · rw [heq]
  · intro a ha
    rw [heq] at ha
    simp only [Sys.trace_emit, List.mem_append, List.mem_singleton] at ha
    rcases ha with ha | ha
    · exact ha
    · cases ha

/-- Witness for C5: the concrete no-record `terminate` run. -/
theorem terminate_no_record_noop_witness :
    terminate gwTerminateFails ⟨none, []⟩ =
      (Sys.emit ⟨none, []⟩ (.echo "No instance provisioned."), none) ∧
    gatewayCalls (terminate gwTerminateFails ⟨none, []⟩).1.trace = gatewayCalls [] := by
  have h := terminate_no_record_noop gwTerminateFails ⟨none, []⟩ rfl
  exact ⟨h.1, h.2.1⟩

/-- C7: the record loader returns the absent state (no exception) when
the backing file is missing, errors only when a file exists whose content
is corrupt (malformed JSON, or a JSON object missing a required key), and
loads every well-formed record without error. -/
theorem load_record_store :
    load_instance_info none = .ok (none, none) ∧
    (∀ (f : Option FileContent) (e : PyError),
      load_instance_info f = .error e →
      ∃ c, f = some c ∧ corruptContent c = true) ∧
    (∀ c, corruptContent c = true →
      ∃ e, load_instance_info (some c) = .error e) ∧
    (∀ iid iip, load_instance_info (some (recFile iid iip)) =
      .ok (some iid, some iip)) := by
  refine ⟨rfl, ?_, ?_, fun iid iip => load_recFile iid iip⟩
  · intro f e h
    match f with
    | none => cases h
    | some .malformed => exact ⟨.malformed, rfl, rfl⟩
    | some (.json es) =>
      refine ⟨.json es, rfl, ?_⟩
      simp only [load_instance_info] at h
      simp only [corruptContent]
      rcases h1 : es.lookup "instance_id" with _ | iid
      · simp [h1]
      · rcases h2 : es.lookup "instance_ip" with _ | iip
        · simp [h1, h2]
        · rw [h1, h2] at h
          cases h
  · intro c hc
    match c with
    | .malformed => exact ⟨.jsonDecodeError, rfl⟩
    | .json es =>
      simp only [corruptContent, Bool.or_eq_true, Option.isNone_iff_eq_none] at hc
      simp only [load_instance_info]
      rcases h1 : es.lookup "instance_id" with _ | iid
      · exact ⟨.keyError "instance_id", rfl⟩
      · rcases h2 : es.lookup "instance_ip" with _ | iip
        · exact ⟨.keyError "instance_ip", rfl⟩
        · rw [h1] at hc
          rw [h2] at hc
          rcases hc with hc | hc <;> cases hc

/-- Witness for C7: the loader's behaviour at the missing file, at a
malformed file, and at a concrete well-formed record. -/
theorem load_record_store_witness :
    load_instance_info none = .ok (none, none) ∧
    (∃ c, (some FileContent.malformed : Option FileContent) = some c ∧
      corruptContent c = true) ∧
    load_instance_info (some (recFile "i-0abc" "203.0.113.5")) =
      .ok (some "i-0abc", some "203.0.113.5") :=
  ⟨load_record_store.1,
   load_record_store.2.1 (some .malformed) .jsonDecodeError rfl,
   load_record_store.2.2.2 "i-0abc" "203.0.113.5"⟩

/-- C8: in an `up` run that launched an instance and reached the describe
call, the persisted record holds exactly the instance id the launch
returned and the address the describe call reported for that id — in
particular this covers every successful `up` run. -/
theorem up_address_matches_describe (gw : Gateway) (env : ProcEnv)
    (t v tid ver iid ip : String) (u : Unit)
    (hl : instance_templates.lookup t = some (tid, ver))
    (hr : gw.runInstances tid ver = .ok iid)
    (hw : gw.waitInstanceRunning iid = .ok u)
    (hd : gw.describeInstanceIp iid = .ok ip) :
    (up gw env t v ⟨none, []⟩).1.file = some (recFile iid ip) := by
  simp only [up, load_instance_info, run_instance, get_instance_ip, hl, hr, hw, hd]
  rw [attach_volume_file]
  simp [save_instance_info, Sys.emit, recFile]

/-- Witness for C8: the all-ok provider reports `203.0.113.5` for
`i-0abc`, and the record after `up` holds exactly that pair. -/
theorem up_address_matches_describe_witness :
    gwAllOk.describeInstanceIp "i-0abc" = .ok "203.0.113.5" ∧
    (up gwAllOk envAllOk "nano" "/dev/nvme2n1" ⟨none, []⟩).1.file =
      some (recFile "i-0abc" "203.0.113.5") :=
  ⟨rfl, up_address_matches_describe gwAllOk envAllOk "nano" "/dev/nvme2n1"
    "lt-0e0b43a5b92c4d420" "1" "i-0abc" "203.0.113.5" () (by decide) rfl rfl rfl⟩

/-- C9: a checked remote command (`mustSucceed = true`) with a non-zero
exit status raises `CalledProcessError`; when the remote mkdir of the
mount sequence fails this way, `up` aborts with that error and the
subsequent chown and mount commands are never spawned. -/
theorem remote_command_failure_aborts (gw : Gateway) (env : ProcEnv)
    (t v tid ver iid ip : String) (u uw uv : Unit)
    (hl : instance_templates.lookup t = some (tid, ver))
    (hr : gw.runInstances tid ver = .ok iid)
    (hw : gw.waitInstanceRunning iid = .ok u)
    (hd : gw.describeInstanceIp iid = .ok ip)
    (ha : gw.attachVolume "/dev/sdf" iid volume_id = .ok uw)
    (hv : gw.waitVolumeInUse volume_id = .ok uv)
    (hm : env.exitCode (ssh_argv ip ["sudo", "mkdir", "/mnt/external"]) ≠ 0) :
    (∀ (ip2 : String) (cmd : List String) (s : Sys),
      env.exitCode (ssh_argv ip2 cmd) ≠ 0 →
      (execute_ssh env ip2 cmd true s).2 =
        .error (.calledProcessError (env.exitCode (ssh_argv ip2 cmd)))) ∧
    (up gw env t v ⟨none, []⟩).2 =
      some (.calledProcessError
        (env.exitCode (ssh_argv ip ["sudo", "mkdir", "/mnt/external"]))) ∧
    Event.procCall (ssh_argv ip ["sudo", "chown", "ubuntu", "/mnt/external"]) ∉
      (up gw env t v ⟨none, []⟩).1.trace ∧
    Event.procCall (ssh_argv ip ["sudo", "mount", v, "/mnt/external"]) ∉
      (up gw env t v ⟨none, []⟩).1.trace := by
  refine ⟨?_, ?_, ?_, ?_⟩
  · intro ip2 cmd s h
    simp [execute_ssh, h]
  all_goals
    simp only [up, load_instance_info, run_instance, get_instance_ip, hl, hr, hw, hd,
      attach_volume, execute_ssh, ha, hv, if_true, if_neg hm]
  all_goals
    simp [save_instance_info, Sys.emit, ssh_argv, key_path]

/-- Witness for C9: with the all-ok provider and a subprocess environment
in which the remote mkdir exits 1, `up` aborts with the process error and
never spawns the chown command. -/
theorem remote_command_failure_aborts_witness :
    (up gwAllOk envMkdirFails "nano" "/dev/nvme2n1" ⟨none, []⟩).2 =
      some (.calledProcessError 1) ∧
    Event.procCall (ssh_argv "203.0.113.5" ["sudo", "chown", "ubuntu", "/mnt/external"]) ∉
      (up gwAllOk envMkdirFails "nano" "/dev/nvme2n1" ⟨none, []⟩).1.trace ∧
    Event.procCall (ssh_argv "203.0.113.5" ["sudo", "mount", "/dev/nvme2n1", "/mnt/external"]) ∉
      (up gwAllOk envMkdirFails "nano" "/dev/nvme2n1" ⟨none, []⟩).1.trace := by
  have h := remote_command_failure_aborts gwAllOk envMkdirFails "nano" "/dev/nvme2n1"
    "lt-0e0b43a5b92c4d420" "1" "i-0abc" "203.0.113.5" () () ()
    (by decide) rfl rfl rfl rfl rfl (by decide)
  exact ⟨h.2.1.trans (by decide), h.2.2.1, h.2.2.2⟩

theorem attach_volume_mem (gw : Gateway) (env : ProcEnv)
    (iid ip vdev : String) (s : Sys) (d i vo : String) :
    Event.attachVolumeCall d i vo ∈ (attach_volume gw env iid ip vdev s).1.trace →
    Event.attachVolumeCall d i vo ∈ s.trace ∨
      (d = "/dev/sdf" ∧ i = iid ∧ vo = volume_id) := by
  obtain ⟨tl, htr, -, -, hmem⟩ := attach_volume_tail gw env iid ip vdev s
  rw [htr]
  intro h
  rcases List.mem_append.1 h with h | h
  · exact .inl h
  · exact .inr (hmem d i vo h)

/-- C10 (implicit): in every `up` invocation the device path passed to the
provider's attach-volume call is the constant "/dev/sdf", whatever the
caller-supplied `volume_device` is; `volume_device` appears only as the
device operand of the remote mount command, as the happy-path trace of the
mount sequence shows explicitly. -/
theorem attach_device_constant (gw : Gateway) (env : ProcEnv) (t v : String) :
    (∀ d i vo, Event.attachVolumeCall d i vo ∈ (up gw env t v ⟨none, []⟩).1.trace →
      d = "/dev/sdf") ∧
    (∀ iid ip vdev s d i vo,
      Event.attachVolumeCall d i vo ∈ (attach_volume gw env iid ip vdev s).1.trace →
      Event.attachVolumeCall d i vo ∈ s.trace ∨
        (d = "/dev/sdf" ∧ i = iid ∧ vo = volume_id)) ∧
    (∀ iid ip vdev (uw uv : Unit) (f : Option FileContent),
      gw.attachVolume "/dev/sdf" iid volume_id = .ok uw →
      gw.waitVolumeInUse volume_id = .ok uv →
      env.exitCode (ssh_argv ip ["sudo", "mkdir", "/mnt/external"]) = 0 →
      env.exitCode (ssh_argv ip ["sudo", "chown", "ubuntu", "/mnt/external"]) = 0 →
      (attach_volume gw env iid ip vdev ⟨f, []⟩).1.trace =
        [.attachVolumeCall "/dev/sdf" iid volume_id,
         .echo "Waiting for volume to be attached...",
         .waitVolumeCall volume_id,
         .echo "Mounting volume...",
         .echo ("Executing command: " ++
           String.intercalate " " (ssh_argv ip ["sudo", "mkdir", "/mnt/external"])),
         .procCall (ssh_argv ip ["sudo", "mkdir", "/mnt/external"]),
         .echo ("Executing command: " ++
           String.intercalate " " (ssh_argv ip ["sudo", "chown", "ubuntu", "/mnt/external"])),
         .procCall (ssh_argv ip ["sudo", "chown", "ubuntu", "/mnt/external"]),
         .echo ("Executing command: " ++
           String.intercalate " " (ssh_argv ip ["sudo", "mount", vdev, "/mnt/external"])),
         .procCall (ssh_argv ip ["sudo", "mount", vdev, "/mnt/external"])]) := by
  refine ⟨?_, fun iid ip vdev s d i vo h => attach_volume_mem gw env iid ip vdev s d i vo h, ?_⟩
  · intro d i vo h
    rcases hl : instance_templates.lookup t with _ | tv
    · simp [up, load_instance_info, run_instance, hl, Sys.emit] at h
    · rcases hr : gw.runInstances tv.1 tv.2 with e | iid0
      · simp [up, load_instance_info, run_instance, hl, hr, Sys.emit] at h
      · rcases hw : gw.waitInstanceRunning iid0 with e | u
        · simp [up, load_instance_info, run_instance, hl, hr, hw, Sys.emit] at h
        · rcases hd : gw.describeInstanceIp iid0 with e | ip0
          · simp [up, load_instance_info, run_instance, get_instance_ip,
              hl, hr, hw, hd, Sys.emit] at h
          · simp only [up, load_instance_info, run_instance, get_instance_ip,
              hl, hr, hw, hd] at h
            rcases attach_volume_mem gw env iid0 ip0 v _ d i vo h with h2 | h2
            · simp [save_instance_info, Sys.emit] at h2
            · exact h2.1
  · intro iid ip vdev uw uv f ha hv h3 h4
    by_cases h5 : env.exitCode (ssh_argv ip ["sudo", "mount", vdev, "/mnt/external"]) = 0 <;>
      simp [attach_volume, execute_ssh, ha, hv, h3, h4, h5, Sys.emit]

/-- Witness for C10: the concrete happy-path mount sequence, with the
provider call at device "/dev/sdf" and the caller's device only in the
mount command. -/
theorem attach_device_constant_witness :
    ("/dev/sdf" : String) = "/dev/sdf" ∧
    (attach_volume gwAllOk envAllOk "i-0abc" "203.0.113.5" "/dev/nvme2n1" ⟨none, []⟩).1.trace =
      [.attachVolumeCall "/dev/sdf" "i-0abc" "vol-03e082be1ec238e52",
       .echo "Waiting for volume to be attached...",
       .waitVolumeCall "vol-03e082be1ec238e52",
       .echo "Mounting volume...",
       .echo "Executing command: ssh -i ~/Dropbox/virginia.cer -o StrictHostKeyChecking=no ubuntu@203.0.113.5 sudo mkdir /mnt/external",
       .procCall ["ssh", "-i", "~/Dropbox/virginia.cer", "-o", "StrictHostKeyChecking=no",
         "ubuntu@203.0.113.5", "sudo", "mkdir", "/mnt/external"],
       .echo "Executing command: ssh -i ~/Dropbox/virginia.cer -o StrictHostKeyChecking=no ubuntu@203.0.113.5 sudo chown ubuntu /mnt/external",
       .procCall ["ssh", "-i", "~/Dropbox/virginia.cer", "-o", "StrictHostKeyChecking=no",
         "ubuntu@203.0.113.5", "sudo", "chown", "ubuntu", "/mnt/external"],
       .echo "Executing command: ssh -i ~/Dropbox/virginia.cer -o StrictHostKeyChecking=no ubuntu@203.0.113.5 sudo mount /dev/nvme2n1 /mnt/external",
       .procCall ["ssh", "-i", "~/Dropbox/virginia.cer", "-o", "StrictHostKeyChecking=no",
         "ubuntu@203.0.113.5", "sudo", "mount", "/dev/nvme2n1", "/mnt/external"]] := by
  constructor
  · exact (attach_device_constant gwAllOk envAllOk "nano" "/dev/nvme2n1").1
      "/dev/sdf" "i-0abc" volume_id (by decide)
  · exact ((attach_device_constant gwAllOk envAllOk "nano" "/dev/nvme2n1").2.2
      "i-0abc" "203.0.113.5" "/dev/nvme2n1" () () none rfl rfl rfl rfl).trans (by decide)

end EC2
